import Mathlib

/-!
Shallow embedding of the voice-tts repository (src/config.py and src/main.py)
and proofs about it.  Python strings are modelled by Lean String; the Python
str.split, str.strip and str.lower methods are modelled by executable
functions below; filesystem and network effects are modelled by an explicit
environment of boolean oracles, and every function that performs effects
also returns the list of network fetches it attempted, so that claims of the
form "no network call happens" are statable.
-/

namespace VoiceTts

/-! ## Python string primitives -/

/-- Model of the Python method s.split(sep) for a single-character separator,
on the underlying character list.  Python semantics: splitting the empty
string yields a list holding one empty string, and separators at the ends
produce empty fields. -/
def splitCharList (sep : Char) : List Char → List (List Char)
  | [] => [[]]
  | c :: rest =>
    let r := splitCharList sep rest
    if c = sep then [] :: r
    else
      match r with
      | [] => [[c]]
      | h :: t => (c :: h) :: t

/-- Model of the Python method s.split(sep) for a single-character separator. -/
def pySplit (sep : Char) (s : String) : List String :=
  (splitCharList sep s.toList).map String.mk

/-- Model of the Python method s.strip with no arguments: drop leading and
trailing whitespace. -/
def pyStrip (s : String) : String :=
  String.mk (((s.toList.dropWhile Char.isWhitespace).reverse.dropWhile Char.isWhitespace).reverse)

/-- Model of the Python method s.lower, restricted to the ASCII range used by
this program. -/
def pyLower (s : String) : String :=
  String.mk (s.toList.map Char.toLower)

/-! ## Configuration (src/config.py)

The class PiperSettings in src/config.py declares exactly the fields below,
with these defaults.  Note that it declares mqtt bind settings and s3
settings but no plain host or port field. -/

structure PiperSettings where
  mqtt_host : String := "localhost"
  mqtt_port : Nat := 1883
  s3_endpoint : String := "http://localhost:3900"
  s3_access_key : String := "your-access-key"
  s3_secret_key : String := "your-secret-key"
  s3_bucket : String := "voice-commands"
  models_dir : String := "./models"
  default_voice : String := "de_DE-thorsten-high"
  log_level : String := "INFO"
deriving DecidableEq, Repr

/-- The module-level settings object produced with all defaults. -/
def defaultSettings : PiperSettings := {}

/-- Model of Python attribute access on a PiperSettings instance: pydantic
models expose exactly the declared fields, and accessing any other attribute
raises AttributeError, modelled here by none.  Numeric fields are rendered
through toString only so that all attributes share one result type. -/
def PiperSettings.getattr (s : PiperSettings) (name : String) : Option String :=
  if name = "mqtt_host" then some s.mqtt_host
  else if name = "mqtt_port" then some (toString s.mqtt_port)
  else if name = "s3_endpoint" then some s.s3_endpoint
  else if name = "s3_access_key" then some s.s3_access_key
  else if name = "s3_secret_key" then some s.s3_secret_key
  else if name = "s3_bucket" then some s.s3_bucket
  else if name = "models_dir" then some s.models_dir
  else if name = "default_voice" then some s.default_voice
  else if name = "log_level" then some s.log_level
  else none

/-! ## Errors -/

/-- The exceptions that the embedded code can raise. -/
inductive PiperError where
  | valueError (msg : String)
  | downloadError (url : String)
  | loadError (path : String)
  | httpException (status : Nat) (detail : String)
  | attributeError (name : String)
deriving DecidableEq, Repr

/-- Model of the Python expression str(e) on a caught exception.  For the
ValueError raised by download_piper_model the text is the exact message the
code builds; for library exceptions (urllib, onnx loading) the text is not
determined by this repository, so a representative rendering is used. -/
def PiperError.message : PiperError → String
  | .valueError msg => msg
  | .downloadError url => "download failed: " ++ url
  | .loadError path => "load failed: " ++ path
  | .httpException _ detail => detail
  | .attributeError name => "object has no attribute " ++ name

/-! ## Effect environment -/

/-- Oracles for the effects outside this repository: os.path.exists on a
local path, whether urllib.request.urlretrieve of a url succeeds, and
whether PiperVoice.load of a local model path succeeds. -/
structure Env where
  fileExists : String → Bool
  downloadOk : String → Bool
  loadOk : String → Bool

/-! ## download_piper_model (src/main.py lines 34-64) -/

/-- The fixed remote repository base url (src/main.py line 36). -/
def base_url : String := "https://huggingface.co/rhasspy/piper-voices/resolve/main"

/-- The onnx download url derived in src/main.py lines 44-51:
base/lang_family/lang_code/dataset/quality/model_name.onnx, where
lang_family is the text of the first hyphen part before its first
underscore, lang_code is the whole first hyphen part, dataset the second
and quality the third. -/
def derived_onnx_url (model_name : String) : String :=
  let parts := pySplit '-' model_name
  let lang_family := (pySplit '_' (parts.headD "")).headD ""
  let lang_code := parts.headD ""
  let dataset := (parts.drop 1).headD ""
  let quality := (parts.drop 2).headD ""
  base_url ++ "/" ++ lang_family ++ "/" ++ lang_code ++ "/" ++ dataset ++ "/" ++
    quality ++ "/" ++ model_name ++ ".onnx"

/-- The json config download url (src/main.py line 52). -/
def derived_json_url (model_name : String) : String :=
  derived_onnx_url model_name ++ ".json"

/-- The local onnx path, os.path.join of the models directory and the file
name (src/main.py line 54). -/
def local_onnx_path (st : PiperSettings) (model_name : String) : String :=
  st.models_dir ++ "/" ++ model_name ++ ".onnx"

/-- The local json path (src/main.py line 55). -/
def local_json_path (st : PiperSettings) (model_name : String) : String :=
  st.models_dir ++ "/" ++ model_name ++ ".onnx.json"

/-- Embedding of download_piper_model.  Returns the result of the call
(paths on success, the raised exception on failure) together with the list
of urls for which urlretrieve was invoked, in order, so that network
activity is observable.  Mirrors the source: validate the hyphen count,
derive urls and paths, then fetch each file only when it is absent locally;
a failing fetch raises and aborts the rest. -/
def download_piper_model (st : PiperSettings) (env : Env) (model_name : String) :
    Except PiperError (String × String) × List String :=
  if (pySplit '-' model_name).length < 3 then
    (.error (.valueError
      ("Invalid Piper model name format (e.g., de_DE-thorsten-high): " ++ model_name)), [])
  else
    let onnx_url := derived_onnx_url model_name
    let json_url := derived_json_url model_name
    let onnx_path := local_onnx_path st model_name
    let json_path := local_json_path st model_name
    if env.fileExists onnx_path then
      if env.fileExists json_path then (.ok (onnx_path, json_path), [])
      else if env.downloadOk json_url then (.ok (onnx_path, json_path), [json_url])
      else (.error (.downloadError json_url), [json_url])
    else if env.downloadOk onnx_url then
      if env.fileExists json_path then (.ok (onnx_path, json_path), [onnx_url])
      else if env.downloadOk json_url then (.ok (onnx_path, json_path), [onnx_url, json_url])
      else (.error (.downloadError json_url), [onnx_url, json_url])
    else (.error (.downloadError onnx_url), [onnx_url])

/-! ## The voice cache (src/main.py lines 30 and 67-85) -/

/-- Opaque handle returned by PiperVoice.load, identified by the model path
it was loaded from. -/
structure PiperVoice where
  modelPath : String
deriving DecidableEq, Repr

/-- Model of PiperVoice.load: succeeds or raises according to the
environment oracle. -/
def PiperVoice.load (env : Env) (path : String) : Except PiperError PiperVoice :=
  if env.loadOk path then .ok ⟨path⟩ else .error (.loadError path)

/-- The loaded_voices dictionary, as an association list in insertion
order. -/
def VoiceMap := List (String × PiperVoice)

/-- Dictionary lookup. -/
def VoiceMap.find? : VoiceMap → String → Option PiperVoice
  | [], _ => none
  | (k, v) :: rest, key => if k = key then some v else VoiceMap.find? rest key

/-- Dictionary assignment: overwrite an existing key in place, or append a
new one. -/
def VoiceMap.insert : VoiceMap → String → PiperVoice → VoiceMap
  | [], key, v => [(key, v)]
  | (k, w) :: rest, key, v =>
    if k = key then (key, v) :: rest else (k, w) :: VoiceMap.insert rest key v

/-- The observable outcome of one get_voice call: the returned handle or
raised exception, the dictionary afterwards, the urls fetched, and how many
times PiperVoice.load was invoked. -/
structure GetVoiceResult where
  result : Except PiperError PiperVoice
  newMap : VoiceMap
  urlsFetched : List String
  loadAttempts : Nat

/-- Embedding of get_voice.  The name is stripped; a cached name is answered
from the dictionary with no effects; otherwise download_piper_model runs,
then PiperVoice.load, and only a successful load is stored; any exception is
re-raised as an HTTPException with status 400 carrying the original message. -/
def get_voice (st : PiperSettings) (env : Env) (m : VoiceMap) (voice_name : String) :
    GetVoiceResult :=
  let key := pyStrip voice_name
  match VoiceMap.find? m key with
  | some v => ⟨.ok v, m, [], 0⟩
  | none =>
    match download_piper_model st env key with
    | (.error e, urls) =>
      ⟨.error (.httpException 400
        ("Failed to load voice '" ++ key ++ "': " ++ e.message)), m, urls, 0⟩
    | (.ok (onnx_path, _json_path), urls) =>
      match PiperVoice.load env onnx_path with
      | .error e =>
        ⟨.error (.httpException 400
          ("Failed to load voice '" ++ key ++ "': " ++ e.message)), m, urls, 1⟩
      | .ok v => ⟨.ok v, VoiceMap.insert m key v, urls, 1⟩

/-- Repeated get_voice calls for one name, threading the dictionary, with
the per-call results and the total urls fetched and load invocations. -/
def get_voice_calls (st : PiperSettings) (envs : List Env) (m : VoiceMap) (name : String) :
    List (Except PiperError PiperVoice) × VoiceMap × List String × Nat :=
  match envs with
  | [] => ([], m, [], 0)
  | e :: rest =>
    let r := get_voice st e m name
    let rec_ := get_voice_calls st rest r.newMap name
    (r.result :: rec_.1, rec_.2.1, r.urlsFetched ++ rec_.2.2.1, r.loadAttempts + rec_.2.2.2)

/-! ## The HTTP endpoint create_speech (src/main.py lines 101-189) -/

/-- The request body model SpeechRequest (src/main.py lines 101-105).  The
speed field is a Python float; since the program never reads it, its value
is modelled by a rational number. -/
structure SpeechRequest where
  input : String
  voice : String := "de_DE-thorsten-high"
  response_format : String := "wav"
  speed : Rat := 1
deriving DecidableEq, Repr

/-- Outcome of the subprocess.run invocation of ffmpeg: normal exit,
non-zero exit (CalledProcessError because check is set), or any other
exception while running it, such as a missing ffmpeg binary. -/
inductive FfmpegOutcome where
  | ok
  | calledProcessError
  | otherError
deriving DecidableEq, Repr

/-- The two temporary files a request can create: the mkstemp wav file and
the mkstemp transcoder-output file. -/
inductive TempFile where
  | wavFile
  | transcodedFile
deriving DecidableEq, Repr

/-- Model of os.remove on the set of live temporary files. -/
def removeFile (files : List TempFile) (f : TempFile) : List TempFile :=
  files.filter (fun g => g ≠ f)

/-- The cleanup_files closure defined in create_speech (src/main.py lines
164-168): remove each of the two temporary files if it exists. -/
def cleanup_files (files : List TempFile) : List TempFile :=
  let files1 :=
    if TempFile.wavFile ∈ files then removeFile files TempFile.wavFile else files
  if TempFile.transcodedFile ∈ files1 then removeFile files1 TempFile.transcodedFile
  else files1

/-- Effect environment for one HTTP request: the voice-cache environment
plus whether voice.synthesize_wav succeeds and how the ffmpeg subprocess
ends. -/
structure HttpEnv extends Env where
  synthOk : Bool
  ffmpeg : FfmpegOutcome

/-- What the endpoint hands back: a file with a media type, or an
HTTPException status and detail. -/
inductive SpeechResponse where
  | file (f : TempFile) (mediaType : String)
  | httpError (status : Nat) (detail : String)
deriving DecidableEq, Repr

/-- True exactly when the response is a delivered file. -/
def SpeechResponse.isFile : SpeechResponse → Bool
  | .file _ _ => true
  | .httpError _ _ => false

/-- The observable outcome of one create_speech call.  survivingFiles is
the set of temporary files still on disk after the request is fully over,
background tasks attached to the response included; the flags record which
stages ran. -/
structure SpeechResult where
  response : SpeechResponse
  tempFilesCreated : List TempFile
  survivingFiles : List TempFile
  voiceResolved : Bool
  synthesisCalled : Bool
  transcoderInvoked : Bool
deriving DecidableEq, Repr

/-- Embedding of create_speech.  Mirrors the source control flow: reject
blank input with status 400 before resolving the voice; resolve the voice
(an HTTPException from get_voice propagates before any temporary file is
made); create the wav temp file; a synthesis exception hits the generic
handler, which removes the wav file if it exists; a response_format that
lowercases to wav returns the wav file with media type audio/wav and a
background task that removes it after delivery; otherwise the transcoded
temp file is created and ffmpeg runs: on non-zero exit the
CalledProcessError handler removes only the wav file, on another exception
the generic handler likewise removes only the wav file, and on success the
file is returned with the derived media type and a background cleanup_files
task that removes both files after delivery. -/
def create_speech (st : PiperSettings) (env : HttpEnv) (m : VoiceMap)
    (req : SpeechRequest) : SpeechResult × VoiceMap :=
  if pyStrip req.input = "" then
    ({ response := .httpError 400 "Input text cannot be empty",
       tempFilesCreated := [], survivingFiles := [],
       voiceResolved := false, synthesisCalled := false, transcoderInvoked := false }, m)
  else
    let gv := get_voice st env.toEnv m req.voice
    match gv.result with
    | .error e =>
      ({ response := .httpError 400 e.message,
         tempFilesCreated := [], survivingFiles := [],
         voiceResolved := true, synthesisCalled := false, transcoderInvoked := false },
       gv.newMap)
    | .ok _v =>
      let files0 : List TempFile := [TempFile.wavFile]
      if env.synthOk = false then
        let files1 :=
          if TempFile.wavFile ∈ files0 then removeFile files0 TempFile.wavFile else files0
        ({ response := .httpError 500 "TTS generation error",
           tempFilesCreated := files0, survivingFiles := files1,
           voiceResolved := true, synthesisCalled := true, transcoderInvoked := false },
         gv.newMap)
      else if pyLower req.response_format = "wav" then
        ({ response := .file TempFile.wavFile "audio/wav",
           tempFilesCreated := files0,
           survivingFiles := removeFile files0 TempFile.wavFile,
           voiceResolved := true, synthesisCalled := true, transcoderInvoked := false },
         gv.newMap)
      else
        let files1 : List TempFile := TempFile.transcodedFile :: files0
        match env.ffmpeg with
        | .calledProcessError =>
          let files2 :=
            if TempFile.wavFile ∈ files1 then removeFile files1 TempFile.wavFile else files1
          ({ response := .httpError 500 "Audio format conversion failed.",
             tempFilesCreated := files1, survivingFiles := files2,
             voiceResolved := true, synthesisCalled := true, transcoderInvoked := true },
           gv.newMap)
        | .otherError =>
          let files2 :=
            if TempFile.wavFile ∈ files1 then removeFile files1 TempFile.wavFile else files1
          ({ response := .httpError 500 "TTS generation error",
             tempFilesCreated := files1, survivingFiles := files2,
             voiceResolved := true, synthesisCalled := true, transcoderInvoked := true },
           gv.newMap)
        | .ok =>
          let content_type :=
            if req.response_format ≠ "mp3" then "audio/" ++ req.response_format
            else "audio/mpeg"
          ({ response := .file TempFile.transcodedFile content_type,
             tempFilesCreated := files1,
             survivingFiles := cleanup_files files1,
             voiceResolved := true, synthesisCalled := true, transcoderInvoked := true },
           gv.newMap)

/-! ## The main entry point (src/main.py lines 192-199) -/

/-- Embedding of main: before uvicorn.run can be reached the f-string in the
log line evaluates settings.host and then settings.port, each an attribute
access on the PiperSettings instance; an undefined attribute raises
AttributeError.  On success the pair handed to uvicorn.run is returned. -/
def main_startup (s : PiperSettings) : Except PiperError (String × String) :=
  match s.getattr "host" with
  | none => .error (.attributeError "host")
  | some h =>
    match s.getattr "port" with
    | none => .error (.attributeError "port")
    | some p => .ok (h, p)

/-! ## Concrete environments and inputs used by witnesses -/

/-- Environment in which no model file is on disk yet and every download and
load succeeds. -/
def probeEnv : Env := ⟨fun _ => false, fun _ => true, fun _ => true⟩

/-- Environment in which no model file is on disk and every download fails. -/
def downFailEnv : Env := ⟨fun _ => false, fun _ => false, fun _ => true⟩

/-- HTTP environment where synthesis and transcoding both succeed. -/
def okHttpEnv : HttpEnv := ⟨probeEnv, true, FfmpegOutcome.ok⟩

/-- HTTP environment where synthesis succeeds and ffmpeg exits non-zero. -/
def convFailHttpEnv : HttpEnv := ⟨probeEnv, true, FfmpegOutcome.calledProcessError⟩

/-- A voice map that already caches the default voice. -/
def cachedMap : VoiceMap := [("de_DE-thorsten-high", ⟨"p"⟩)]

/-- A request for mp3 output. -/
def reqMp3 : SpeechRequest := ⟨"Hallo", "de_DE-thorsten-high", "mp3", 1⟩

/-- A request whose format is the upper-case string WAV. -/
def reqUpperWav : SpeechRequest := ⟨"Hallo", "de_DE-thorsten-high", "WAV", 1⟩

/-- Equality of call outcomes is decidable, so witnesses can be checked by
evaluation. -/
instance {ε α : Type} [DecidableEq ε] [DecidableEq α] : DecidableEq (Except ε α) :=
  fun a b =>
    match a, b with
    | .ok x, .ok y =>
      if h : x = y then .isTrue (congrArg Except.ok h)
      else .isFalse (fun hh => h (Except.ok.inj hh))
    | .error x, .error y =>
      if h : x = y then .isTrue (congrArg Except.error h)
      else .isFalse (fun hh => h (Except.error.inj hh))
    | .ok _, .error _ => .isFalse (fun hh => Except.noConfusion hh)
    | .error _, .ok _ => .isFalse (fun hh => Except.noConfusion hh)

/-- True exactly when a download_piper_model outcome is the ValueError
raised by the identifier-format validation. -/
def isValueError : Except PiperError (String × String) → Bool
  | .error (.valueError _) => true
  | _ => false

/-! ## Supporting lemmas -/

/-- Looking up the key just assigned returns the assigned handle. -/
theorem VoiceMap.find?_insert (m : VoiceMap) (k key : String) (v : PiperVoice) :
    VoiceMap.find? (VoiceMap.insert m k v) key =
      if k = key then some v else VoiceMap.find? m key := by
  induction m with
  | nil => simp [VoiceMap.insert, VoiceMap.find?]
  | cons p rest ih =>
    obtain ⟨k0, v0⟩ := p
    by_cases h0 : k0 = k
    · subst h0
      by_cases h1 : k0 = key <;> simp [VoiceMap.insert, VoiceMap.find?, h1]
    · by_cases h1 : k0 = key
      · subst h1
        have hk : ¬ k = k0 := fun h => h0 h.symm
        simp [VoiceMap.insert, VoiceMap.find?, h0, hk]
      · simp [VoiceMap.insert, VoiceMap.find?, h0, h1, ih]

/-- A get_voice call whose stripped name is already a key of the dictionary
returns the stored handle, leaves the dictionary unchanged, fetches nothing
and never invokes the model loader. -/
theorem get_voice_cached (st : PiperSettings) (env : Env) (m : VoiceMap)
    (name : String) (v : PiperVoice)
    (h : VoiceMap.find? m (pyStrip name) = some v) :
    get_voice st env m name = ⟨.ok v, m, [], 0⟩ := by
  unfold get_voice
  simp [h]

/-- After a get_voice call that returns a handle, that handle is stored in
the dictionary under the stripped name. -/
theorem get_voice_success_stored (st : PiperSettings) (env : Env) (m : VoiceMap)
    (name : String) (v : PiperVoice)
    (h : (get_voice st env m name).result = .ok v) :
    VoiceMap.find? (get_voice st env m name).newMap (pyStrip name) = some v := by
  unfold get_voice at h ⊢
  cases hfind : VoiceMap.find? m (pyStrip name) with
  | some w =>
    simp [hfind] at h ⊢
    exact h
  | none =>
    cases hdl : download_piper_model st env (pyStrip name) with
    | mk res urls =>
      cases res with
      | error e => simp [hfind, hdl] at h
      | ok paths =>
        obtain ⟨onnx_path, json_path⟩ := paths
        cases hld : PiperVoice.load env onnx_path with
        | error e => simp [hfind, hdl, hld] at h
        | ok w =>
          simp [hfind, hdl, hld] at h ⊢
          subst h
          simp [VoiceMap.find?_insert]

/-- Every get_voice call invokes the model loader at most once. -/
theorem get_voice_loadAttempts_le_one (st : PiperSettings) (env : Env) (m : VoiceMap)
    (name : String) : (get_voice st env m name).loadAttempts ≤ 1 := by
  unfold get_voice
  cases hfind : VoiceMap.find? m (pyStrip name) with
  | some w => simp [hfind]
  | none =>
    cases hdl : download_piper_model st env (pyStrip name) with
    | mk res urls =>
      cases res with
      | error e => simp [hfind, hdl]
      | ok paths =>
        obtain ⟨onnx_path, json_path⟩ := paths
        cases hld : PiperVoice.load env onnx_path with
        | error e => simp [hfind, hdl, hld]
        | ok w => simp [hfind, hdl, hld]

/-- Once the stripped name is cached, any further sequence of get_voice
calls, under arbitrary environments, returns the stored handle every time,
never touches the network or the loader, and leaves the dictionary
unchanged. -/
theorem get_voice_calls_all_cached (st : PiperSettings) (envs : List Env) (m : VoiceMap)
    (name : String) (v : PiperVoice)
    (h : VoiceMap.find? m (pyStrip name) = some v) :
    get_voice_calls st envs m name = (envs.map (fun _ => Except.ok v), m, [], 0) := by
  induction envs with
  | nil => simp [get_voice_calls]
  | cons e rest ih =>
    simp [get_voice_calls, get_voice_cached st e m name v h, ih]

/-- Producing the path pair from download_piper_model requires having passed
the hyphen-count validation. -/
theorem download_ok_name_valid (st : PiperSettings) (env : Env) (n : String)
    (p : String × String) (urls : List String)
    (h : download_piper_model st env n = (.ok p, urls)) :
    3 ≤ (pySplit '-' n).length := by
  by_cases hc : (pySplit '-' n).length < 3
  · unfold download_piper_model at h
    rw [if_pos hc] at h
    simp at h
  · omega

/-- Every key of the voice dictionary reachable from a dictionary whose keys
all pass the hyphen-count validation again passes it: get_voice only inserts
names for which download_piper_model succeeded. -/
theorem get_voice_preserves_key_validity (st : PiperSettings) (env : Env) (m : VoiceMap)
    (name : String)
    (hm : ∀ k, (VoiceMap.find? m k).isSome = true → 3 ≤ (pySplit '-' k).length) :
    ∀ k, (VoiceMap.find? (get_voice st env m name).newMap k).isSome = true →
      3 ≤ (pySplit '-' k).length := by
  intro k hk
  simp only [get_voice] at hk
  cases hfind : VoiceMap.find? m (pyStrip name) with
  | some w =>
    simp only [hfind] at hk
    exact hm k hk
  | none =>
    simp only [hfind] at hk
    cases hdl : download_piper_model st env (pyStrip name) with
    | mk res urls =>
      cases res with
      | error e =>
        simp only [hdl] at hk
        exact hm k hk
      | ok paths =>
        obtain ⟨onnx_path, json_path⟩ := paths
        simp only [hdl] at hk
        cases hld : PiperVoice.load env onnx_path with
        | error e =>
          simp only [hld] at hk
          exact hm k hk
        | ok w =>
          simp only [hld] at hk
          simp only [VoiceMap.find?_insert] at hk
          by_cases hkey : pyStrip name = k
          · subst hkey
            exact download_ok_name_valid st env (pyStrip name) (onnx_path, json_path) urls hdl
          · rw [if_neg hkey] at hk
            exact hm k hk

/-! ## Claim theorems -/

/-- Claim C1: for every voice identifier, repeated get_voice calls within
one process lifetime perform at most one download-and-load sequence, and
every call after the first returns the same handle stored in the voice map.
Formally: a call that returns a handle invokes the loader at most once and
stores the handle under the stripped identifier, and then every further
call, under arbitrary later environments, returns exactly that stored
handle, fetches no url, never invokes the loader again, and leaves the map
unchanged. -/
theorem get_voice_memoizes_one_download_and_load (st : PiperSettings) (env : Env)
    (m : VoiceMap) (name : String) (v : PiperVoice) (envs : List Env)
    (h : (get_voice st env m name).result = .ok v) :
    (get_voice st env m name).loadAttempts ≤ 1 ∧
    VoiceMap.find? (get_voice st env m name).newMap (pyStrip name) = some v ∧
    get_voice_calls st envs (get_voice st env m name).newMap name =
      (envs.map (fun _ => Except.ok v), (get_voice st env m name).newMap, [], 0) := by
  have hstored := get_voice_success_stored st env m name v h
  exact ⟨get_voice_loadAttempts_le_one st env m name, hstored,
    get_voice_calls_all_cached st envs (get_voice st env m name).newMap name v hstored⟩

/-- Witness for C1 at a concrete input: loading the default voice into the
empty map succeeds and the memoization consequences hold for one further
call. -/
theorem get_voice_memoizes_one_download_and_load_witness :
    (get_voice defaultSettings probeEnv [] "de_DE-thorsten-high").loadAttempts ≤ 1 ∧
    VoiceMap.find? (get_voice defaultSettings probeEnv [] "de_DE-thorsten-high").newMap
      (pyStrip "de_DE-thorsten-high") = some ⟨"./models/de_DE-thorsten-high.onnx"⟩ ∧
    get_voice_calls defaultSettings [downFailEnv]
        (get_voice defaultSettings probeEnv [] "de_DE-thorsten-high").newMap
        "de_DE-thorsten-high" =
      ([Except.ok ⟨"./models/de_DE-thorsten-high.onnx"⟩],
       (get_voice defaultSettings probeEnv [] "de_DE-thorsten-high").newMap, [], 0) :=
  get_voice_memoizes_one_download_and_load defaultSettings probeEnv []
    "de_DE-thorsten-high" ⟨"./models/de_DE-thorsten-high.onnx"⟩ [downFailEnv] (by decide)

/-- Claim C10: a get_voice call that fails leaves the voice map exactly as
it was: no partial or invalid entry is inserted. -/
theorem get_voice_failure_leaves_map_unchanged (st : PiperSettings) (env : Env)
    (m : VoiceMap) (name : String) (e : PiperError)
    (h : (get_voice st env m name).result = .error e) :
    (get_voice st env m name).newMap = m := by
  unfold get_voice at h ⊢
  cases hfind : VoiceMap.find? m (pyStrip name) with
  | some w => simp [hfind]
  | none =>
    cases hdl : download_piper_model st env (pyStrip name) with
    | mk res urls =>
      cases res with
      | error e2 => simp [hfind, hdl]
      | ok paths =>
        obtain ⟨onnx_path, json_path⟩ := paths
        cases hld : PiperVoice.load env onnx_path with
        | error e2 => simp [hfind, hdl, hld]
        | ok w => simp [hfind, hdl, hld] at h

set_option maxRecDepth 8192 in
/-- Witness for C10 at a concrete input: with every download failing, the
call for the default voice fails and the map stays empty. -/
theorem get_voice_failure_leaves_map_unchanged_witness :
    (get_voice defaultSettings downFailEnv [] "de_DE-thorsten-high").newMap = [] :=
  get_voice_failure_leaves_map_unchanged defaultSettings downFailEnv []
    "de_DE-thorsten-high"
    (.httpException 400
      ("Failed to load voice '" ++ pyStrip "de_DE-thorsten-high" ++ "': " ++
        ("download failed: " ++ derived_onnx_url (pyStrip "de_DE-thorsten-high"))))
    (by decide)

/-- Claim C3: an identifier whose stripped form has fewer than 3
hyphen-separated segments makes voice resolution fail with the
invalid-input HTTPException carrying status 400, before any network call
and before any loader call, provided every cached key passed validation,
which get_voice_preserves_key_validity shows holds of every reachable
map. -/
theorem get_voice_malformed_rejected_before_network (st : PiperSettings) (env : Env)
    (m : VoiceMap) (name : String)
    (hm : ∀ k, (VoiceMap.find? m k).isSome = true → 3 ≤ (pySplit '-' k).length)
    (h : (pySplit '-' (pyStrip name)).length < 3) :
    (get_voice st env m name).result =
      .error (.httpException 400
        ("Failed to load voice '" ++ pyStrip name ++ "': " ++
          ("Invalid Piper model name format (e.g., de_DE-thorsten-high): " ++
            pyStrip name))) ∧
    (get_voice st env m name).urlsFetched = [] ∧
    (get_voice st env m name).loadAttempts = 0 := by
  have hnone : VoiceMap.find? m (pyStrip name) = none := by
    cases hfind : VoiceMap.find? m (pyStrip name) with
    | none => rfl
    | some w =>
      have := hm (pyStrip name) (by simp [hfind])
      omega
  unfold get_voice
  simp [hnone, download_piper_model, if_pos h, PiperError.message]

/-- Witness for C3 at a concrete input: the one-segment identifier de_DE on
the empty map. -/
theorem get_voice_malformed_rejected_before_network_witness :
    (get_voice defaultSettings probeEnv [] "de_DE").result =
      .error (.httpException 400
        ("Failed to load voice '" ++ pyStrip "de_DE" ++ "': " ++
          ("Invalid Piper model name format (e.g., de_DE-thorsten-high): " ++
            pyStrip "de_DE"))) ∧
    (get_voice defaultSettings probeEnv [] "de_DE").urlsFetched = [] ∧
    (get_voice defaultSettings probeEnv [] "de_DE").loadAttempts = 0 :=
  get_voice_malformed_rejected_before_network defaultSettings probeEnv [] "de_DE"
    (by intro k hk; simp [VoiceMap.find?] at hk) (by decide)

/-- Claim C4 counterexample: the identifier de-thorsten-high, whose first
hyphen part contains no underscore, is not rejected at first use: resolution
proceeds, attempts both downloads (deriving the language family as the whole
first part) and, in an environment where downloads and loading succeed,
returns a handle. -/
theorem no_underscore_identifier_not_rejected :
    (get_voice defaultSettings probeEnv [] "de-thorsten-high").result =
      .ok ⟨"./models/de-thorsten-high.onnx"⟩ ∧
    (get_voice defaultSettings probeEnv [] "de-thorsten-high").urlsFetched =
      ["https://huggingface.co/rhasspy/piper-voices/resolve/main/de/de/thorsten/high/de-thorsten-high.onnx",
       "https://huggingface.co/rhasspy/piper-voices/resolve/main/de/de/thorsten/high/de-thorsten-high.onnx.json"] := by
  exact ⟨by decide, by decide⟩

/-- Claim C4 as amended: first-use validation checks only that the
identifier has at least 3 hyphen-separated parts; an identifier whose first
part contains no underscore is not rejected as invalid, and its download url
is derived with the language family equal to the entire first part. -/
theorem validation_checks_only_hyphen_count (st : PiperSettings) (env : Env)
    (name first dataset quality : String) (rest : List String)
    (hsplit : pySplit '-' name = first :: dataset :: quality :: rest)
    (hu : pySplit '_' first = [first]) :
    isValueError (download_piper_model st env name).1 = false ∧
    derived_onnx_url name =
      base_url ++ "/" ++ first ++ "/" ++ first ++ "/" ++ dataset ++ "/" ++ quality ++
        "/" ++ name ++ ".onnx" := by
  have hlen : ¬ (pySplit '-' name).length < 3 := by
    rw [hsplit]; simp
  constructor
  · unfold download_piper_model
    rw [if_neg hlen]
    by_cases h1 : env.fileExists (local_onnx_path st name) <;>
      by_cases h2 : env.fileExists (local_json_path st name) <;>
        by_cases h3 : env.downloadOk (derived_onnx_url name) <;>
          by_cases h4 : env.downloadOk (derived_json_url name) <;>
            simp [h1, h2, h3, h4, isValueError]
  · unfold derived_onnx_url
    rw [hsplit]
    simp [hu]

/-- Witness for the amended C4 at a concrete input: de-thorsten-high. -/
theorem validation_checks_only_hyphen_count_witness :
    isValueError (download_piper_model defaultSettings probeEnv "de-thorsten-high").1 = false ∧
    derived_onnx_url "de-thorsten-high" =
      base_url ++ "/" ++ "de" ++ "/" ++ "de" ++ "/" ++ "thorsten" ++ "/" ++ "high" ++
        "/" ++ "de-thorsten-high" ++ ".onnx" :=
  validation_checks_only_hyphen_count defaultSettings probeEnv "de-thorsten-high"
    "de" "thorsten" "high" [] (by decide) (by decide)

/-- Claim C5: for a valid identifier of the form lang_REGION-dataset-quality
the derived download urls and local paths are deterministic functions of the
identifier, following the documented templates, and on a fresh environment
download_piper_model fetches exactly those two urls and returns exactly
those two local paths. -/
theorem derived_urls_and_paths_follow_template (st : PiperSettings) (env : Env)
    (name first dataset quality lang region : String)
    (hsplit : pySplit '-' name = [first, dataset, quality])
    (hfirst : pySplit '_' first = [lang, region])
    (hfiles : ∀ p, env.fileExists p = false)
    (hdl : ∀ u, env.downloadOk u = true) :
    derived_onnx_url name =
      base_url ++ "/" ++ lang ++ "/" ++ first ++ "/" ++ dataset ++ "/" ++ quality ++
        "/" ++ name ++ ".onnx" ∧
    derived_json_url name = derived_onnx_url name ++ ".json" ∧
    local_onnx_path st name = st.models_dir ++ "/" ++ name ++ ".onnx" ∧
    local_json_path st name = st.models_dir ++ "/" ++ name ++ ".onnx.json" ∧
    download_piper_model st env name =
      (.ok (local_onnx_path st name, local_json_path st name),
       [derived_onnx_url name, derived_json_url name]) := by
  have hlen : ¬ (pySplit '-' name).length < 3 := by
    rw [hsplit]; simp
  refine ⟨?_, rfl, rfl, rfl, ?_⟩
  · unfold derived_onnx_url
    rw [hsplit]
    simp [hfirst]
  · unfold download_piper_model
    rw [if_neg hlen]
    simp [hfiles, hdl]

/-- Witness for C5 at the concrete identifier de_DE-thorsten-high. -/
theorem derived_urls_and_paths_follow_template_witness :
    derived_onnx_url "de_DE-thorsten-high" =
      base_url ++ "/" ++ "de" ++ "/" ++ "de_DE" ++ "/" ++ "thorsten" ++ "/" ++ "high" ++
        "/" ++ "de_DE-thorsten-high" ++ ".onnx" ∧
    derived_json_url "de_DE-thorsten-high" = derived_onnx_url "de_DE-thorsten-high" ++ ".json" ∧
    local_onnx_path defaultSettings "de_DE-thorsten-high" =
      defaultSettings.models_dir ++ "/" ++ "de_DE-thorsten-high" ++ ".onnx" ∧
    local_json_path defaultSettings "de_DE-thorsten-high" =
      defaultSettings.models_dir ++ "/" ++ "de_DE-thorsten-high" ++ ".onnx.json" ∧
    download_piper_model defaultSettings probeEnv "de_DE-thorsten-high" =
      (.ok (local_onnx_path defaultSettings "de_DE-thorsten-high",
            local_json_path defaultSettings "de_DE-thorsten-high"),
       [derived_onnx_url "de_DE-thorsten-high", derived_json_url "de_DE-thorsten-high"]) :=
  derived_urls_and_paths_follow_template defaultSettings probeEnv "de_DE-thorsten-high"
    "de_DE" "thorsten" "high" "de" "DE" (by decide) (by decide)
    (fun _ => rfl) (fun _ => rfl)

/-- Claim C2 counterexample: on the conversion-failure exit path the
transcoder-output temporary file survives.  With ffmpeg exiting non-zero on
an mp3 request, the handler removes only the wav file: the transcoded file
was created and is still alive when the 500 response is produced. -/
theorem conversion_failure_leaks_transcoded_file :
    (create_speech defaultSettings convFailHttpEnv cachedMap reqMp3).1.survivingFiles =
      [TempFile.transcodedFile] ∧
    (create_speech defaultSettings convFailHttpEnv cachedMap reqMp3).1.response =
      .httpError 500 "Audio format conversion failed." ∧
    TempFile.transcodedFile ∈
      (create_speech defaultSettings convFailHttpEnv cachedMap reqMp3).1.tempFilesCreated := by
  exact ⟨by decide, by decide, by decide⟩

/-- Claim C2 as amended: on every exit path of create_speech the WAV
temporary file is removed (immediately on failure paths, by background task
on delivery paths), and on every path that delivers a file all temporary
files are removed; but the transcoder-output temporary file is not removed
on the conversion-failure and generic-failure paths that follow its
creation. -/
theorem wav_temp_removed_on_every_path (st : PiperSettings) (env : HttpEnv)
    (m : VoiceMap) (req : SpeechRequest) :
    TempFile.wavFile ∉ (create_speech st env m req).1.survivingFiles ∧
    ((create_speech st env m req).1.response.isFile = true →
      (create_speech st env m req).1.survivingFiles = []) := by
  simp only [create_speech]
  by_cases h0 : pyStrip req.input = ""
  · simp [h0, SpeechResponse.isFile]
  · simp only [if_neg h0]
    cases hgv : (get_voice st env.toEnv m req.voice).result with
    | error e => simp [hgv, SpeechResponse.isFile]
    | ok v =>
      simp only [hgv]
      by_cases hs : env.synthOk = false
      · simp [hs, removeFile, SpeechResponse.isFile]
      · simp only [if_neg hs]
        by_cases hw : pyLower req.response_format = "wav"
        · simp [hw, removeFile, SpeechResponse.isFile]
        · simp only [if_neg hw]
          cases hf : env.ffmpeg with
          | ok => simp [hf, cleanup_files, removeFile, SpeechResponse.isFile]
          | calledProcessError => simp [hf, removeFile, SpeechResponse.isFile]
          | otherError => simp [hf, removeFile, SpeechResponse.isFile]

/-- Witness for the amended C2 at a concrete input: on the successful mp3
path every temporary file is gone after the response is delivered. -/
theorem wav_temp_removed_on_every_path_witness :
    TempFile.wavFile ∉
      (create_speech defaultSettings okHttpEnv cachedMap reqMp3).1.survivingFiles ∧
    ((create_speech defaultSettings okHttpEnv cachedMap reqMp3).1.response.isFile = true →
      (create_speech defaultSettings okHttpEnv cachedMap reqMp3).1.survivingFiles = []) :=
  wav_temp_removed_on_every_path defaultSettings okHttpEnv cachedMap reqMp3

/-- Claim C6: a request whose input is empty or whitespace-only is rejected
with status 400 before anything else happens: the voice is not resolved, no
temporary file is created, synthesis and the transcoder never run, and the
voice map is untouched. -/
theorem blank_input_rejected_before_synthesis (st : PiperSettings) (env : HttpEnv)
    (m : VoiceMap) (req : SpeechRequest) (h : pyStrip req.input = "") :
    create_speech st env m req =
      ({ response := .httpError 400 "Input text cannot be empty",
         tempFilesCreated := [], survivingFiles := [],
         voiceResolved := false, synthesisCalled := false, transcoderInvoked := false },
       m) := by
  simp [create_speech, h]

/-- Witness for C6 at a concrete input: a whitespace-only text. -/
theorem blank_input_rejected_before_synthesis_witness :
    create_speech defaultSettings okHttpEnv cachedMap ⟨"  ", "de_DE-thorsten-high", "wav", 1⟩ =
      ({ response := .httpError 400 "Input text cannot be empty",
         tempFilesCreated := [], survivingFiles := [],
         voiceResolved := false, synthesisCalled := false, transcoderInvoked := false },
       cachedMap) :=
  blank_input_rejected_before_synthesis defaultSettings okHttpEnv cachedMap
    ⟨"  ", "de_DE-thorsten-high", "wav", 1⟩ (by decide)

/-- Claim C7 counterexample: the claim reads the format comparison as exact,
but the code lowercases it: for response_format WAV (upper case, not the
string wav) the code returns the synthesized wav file with media type
audio/wav and never invokes the transcoder, instead of returning transcoder
output with media type audio/WAV as the claim requires for a format other
than wav. -/
theorem upper_case_wav_skips_transcoder :
    (create_speech defaultSettings okHttpEnv cachedMap reqUpperWav).1.response =
      .file TempFile.wavFile "audio/wav" ∧
    (create_speech defaultSettings okHttpEnv cachedMap reqUpperWav).1.transcoderInvoked =
      false ∧
    ¬ (create_speech defaultSettings okHttpEnv cachedMap reqUpperWav).1.response =
        .file TempFile.transcodedFile "audio/WAV" := by
  exact ⟨by decide, by decide, by decide⟩

/-- Claim C7 as amended: for a request with non-blank text, a resolvable
voice and successful synthesis and transcoding, a response_format that
lowercases to wav yields the synthesized wav file with media type audio/wav
and no transcoder invocation; any other format yields the transcoder-output
file, with media type audio/mpeg when the format is exactly mp3 and
audio/format otherwise. -/
theorem content_type_matches_requested_format (st : PiperSettings) (env : HttpEnv)
    (m : VoiceMap) (req : SpeechRequest) (v : PiperVoice)
    (hin : ¬ pyStrip req.input = "")
    (hv : VoiceMap.find? m (pyStrip req.voice) = some v)
    (hs : env.synthOk = true)
    (hf : env.ffmpeg = FfmpegOutcome.ok) :
    if pyLower req.response_format = "wav" then
      (create_speech st env m req).1.response = .file TempFile.wavFile "audio/wav" ∧
      (create_speech st env m req).1.transcoderInvoked = false
    else
      (create_speech st env m req).1.response =
        .file TempFile.transcodedFile
          (if req.response_format = "mp3" then "audio/mpeg"
           else "audio/" ++ req.response_format) ∧
      (create_speech st env m req).1.transcoderInvoked = true := by
  have hgv : get_voice st env.toEnv m req.voice = ⟨.ok v, m, [], 0⟩ :=
    get_voice_cached st env.toEnv m req.voice v hv
  by_cases hw : pyLower req.response_format = "wav"
  · rw [if_pos hw]
    simp only [create_speech, if_neg hin, hgv]
    simp [hs, hw]
  · rw [if_neg hw]
    simp only [create_speech, if_neg hin, hgv]
    simp only [hs, hf]
    by_cases hm3 : req.response_format = "mp3"
    · rw [hm3] at hw
      simp [hw, hm3]
    · simp [hw, hm3]

/-- Witness for the amended C7 at a concrete input: an mp3 request yields
the transcoded file with media type audio/mpeg. -/
theorem content_type_matches_requested_format_witness :
    (create_speech defaultSettings okHttpEnv cachedMap reqMp3).1.response =
      .file TempFile.transcodedFile "audio/mpeg" ∧
    (create_speech defaultSettings okHttpEnv cachedMap reqMp3).1.transcoderInvoked =
      true := by
  have h := content_type_matches_requested_format defaultSettings okHttpEnv cachedMap
    reqMp3 ⟨"p"⟩ (by decide) (by decide) rfl rfl
  rw [if_neg (by decide)] at h
  simpa using h

/-- Claim C8: the speed field is dead: two requests identical except for
speed produce identical behavior in every observable respect, response,
temporary files, effects and the resulting voice map. -/
theorem speed_field_never_applied (st : PiperSettings) (env : HttpEnv) (m : VoiceMap)
    (input voice response_format : String) (s1 s2 : Rat) :
    create_speech st env m ⟨input, voice, response_format, s1⟩ =
      create_speech st env m ⟨input, voice, response_format, s2⟩ := rfl

/-- Claim C9: the claim says the settings object used by the HTTP main entry
point defines bind host and port fields.  The code contradicts it: the
PiperSettings class declares mqtt, s3, models, default-voice and log-level
fields but no host and no port attribute, so the very first attribute access
in main raises AttributeError. -/
theorem settings_lacks_host_and_port (s : PiperSettings) :
    s.getattr "host" = none ∧ s.getattr "port" = none ∧
    main_startup s = .error (.attributeError "host") :=
  ⟨rfl, rfl, rfl⟩

end VoiceTts
